import Mathlib

/-!
Shallow embedding of the two non-trivial pieces of `src/drive/client.py`
(the Google Drive convenience client): the query-clause builder
(`_make_querystring`, `_make_query_clause`, `_serialize_query_value`),
the resumable-transfer retry loop (`handle_progressless_iter` and the
resumable branch of `_execute_file_request`), and the two thin callers the
claims mention (`list_files`'s clause construction and `update_file`'s
keyword-argument construction).

Modelling conventions:
- Python strings are Lean `String`s; the two `str.replace` calls in the
  source use one-character patterns, so they are embedded as a structural
  character-by-character replacement (`replaceChar`), which agrees with
  Python's left-to-right non-overlapping `str.replace` for one-character
  patterns.  `str.join` is embedded as `pyJoin`.
- A query value is either a Python `bool` or any other value already
  stringified by `str(...)` (`QueryValue.str`).
- The transfer loop's chunk supplier `req.next_chunk()` is embedded as a
  finite list of `ChunkOutcome`s, one per call, in call order: a call
  either returns a `(progress, response)` pair or raises.  Exceptions are
  the tagged variants `TransferError.serverError status` (`HttpError`,
  carrying `err.resp.status`) and `TransferError.transportError code`
  (`httplib2.HttpLib2Error` / `IOError`; the `code` tag only keeps distinct
  error objects distinguishable).
- `time.sleep(random.random() * 2 ** progressless_iters)` sleeps a random
  real in `[0, 2 ^ progressless_iters)`; the embedding records the trace of
  the upper bounds `2 ^ progressless_iters` of the successive sleeps.
-/

/-! Query values: `_serialize_query_value` branches on `isinstance(value, bool)`;
every non-bool value is used through `str(value)`, embedded here as the
already-stringified `QueryValue.str`. -/

inductive QueryValue where
  | bool (b : Bool)
  | str (s : String)
deriving DecidableEq

/-- Python `str.replace` specialised to a one-character pattern `c`: every
occurrence of `c` is replaced by `replacement`, left to right. -/
def replaceChar (c : Char) (replacement : List Char) : List Char → List Char
  | [] => []
  | x :: xs => (if x = c then replacement else [x]) ++ replaceChar c replacement xs

/-- Python `sep.join(parts)`: the parts interleaved with the separator. -/
def pyJoin (sep : String) : List String → String
  | [] => ""
  | [p] => p
  | p :: q :: rest => p ++ sep ++ pyJoin sep (q :: rest)

/-- Embedding of `Client._serialize_query_value`: a bool renders as the bare
token `true`/`false`; any other value is stringified, backslashes are
escaped first, then single quotes, and the result is wrapped in single
quotes (`"'%s'" % str(value).replace("\\", "\\\\").replace("'", "\\'")`). -/
def _serialize_query_value : QueryValue → String
  | .bool b => if b then "true" else "false"
  | .str s =>
      "'" ++ String.mk (replaceChar '\'' ['\\', '\'']
        (replaceChar '\\' ['\\', '\\'] s.data)) ++ "'"

/-- Embedding of `Client._make_query_clause`: for the operator `"in"` the
clause is `svalue in field`, otherwise `field op svalue`; a set negation
flag (default `False`) prefixes the clause with `not `. -/
def _make_query_clause (field op : String) (value : QueryValue)
    (negation : Bool := false) : String :=
  let svalue := _serialize_query_value value
  let p := if op = "in" then svalue ++ " " ++ op ++ " " ++ field
           else field ++ " " ++ op ++ " " ++ svalue
  if negation then "not " ++ p else p

/-- Embedding of `Client._make_querystring`: each 3-tuple clause
`(field, op, value)` is rendered by `_make_query_clause` (with its default
negation `False`: the source unpacks `for field, op, value in clauses` and
passes no negation argument) and the parts are joined with
`(" %s " % join).join(parts)`. -/
def _make_querystring (clauses : List (String × String × QueryValue))
    (join : String := "and") : String :=
  pyJoin (" " ++ join ++ " ") (clauses.map (fun c => _make_query_clause c.1 c.2.1 c.2.2))

/-- Spec-side comparison definition (for the refinement part of the negation
claim), following the spec's words: `buildQuery(clauses: [(field, op, value,
negate?)], joiner: string = "and") -> string`, i.e. a clause-list interface
whose clauses carry a per-clause negation flag, each clause rendered by the
single-clause rules and the parts joined by the joiner.  The source's
clause-list builder `_make_querystring` takes only 3-tuples. -/
def buildQuery (clauses : List (String × String × QueryValue × Bool))
    (joiner : String := "and") : String :=
  pyJoin (" " ++ joiner ++ " ") (clauses.map (fun c => _make_query_clause c.1 c.2.1 c.2.2.1 c.2.2.2))

/-- One optional clause of `list_files`: Python appends the clause only when
the optional argument is truthy (`if name_equals:` etc.), i.e. not `None`
and not the empty string. -/
def optClause (field op : String) (v : Option String) :
    List (String × String × QueryValue) :=
  match v with
  | none => []
  | some s => if s = "" then [] else [(field, op, QueryValue.str s)]

/-- Embedding of the clause-list construction in `Client.list_files`: the
list starts as `[("trashed", "=", False)]` and each supplied optional filter
appends its clause. -/
def list_files_clauses (name_equals name_contains mimetype parents_in : Option String) :
    List (String × String × QueryValue) :=
  [("trashed", "=", QueryValue.bool false)]
    ++ optClause "name" "=" name_equals
    ++ optClause "name" "contains" name_contains
    ++ optClause "mimeType" "=" mimetype
    ++ optClause "parents" "in" parents_in

/-- The query string `q` that `Client.list_files` builds and sends:
`self._make_querystring(query_clauses)` with the default join `"and"`. -/
def list_files_query (name_equals name_contains mimetype parents_in : Option String) : String :=
  _make_querystring (list_files_clauses name_equals name_contains mimetype parents_in) "and"

/-! Keyword arguments of `Client.update_file`: the `kw` dict starts as
`dict(fileId=file_id)` and each truthy argument adds one key; the media
object is opaque (a `MediaIoBaseUpload` instance, always truthy). -/

abbrev Media := Nat

inductive KwVal where
  | str (s : String)
  | nameBody (s : String)
  | mediaVal (m : Media)
  | boolVal (b : Bool)
deriving DecidableEq

/-- Python truthiness of an optional list argument: `None` and `[]` are falsy. -/
def truthyList : Option (List String) → Bool
  | none => false
  | some l => !l.isEmpty

/-- Embedding of `Client.update_file`: builds the keyword-argument dict in
source order and, when `len(kw) == 1` (only `fileId`), returns without
constructing or executing a remote update request (`none`); otherwise it
executes `self._files.update(**kw)` (`some kw`). -/
def update_file (file_id : String)
    (remove_parents_ids add_parents_ids : Option (List String))
    (name : Option String) (media : Option Media)
    (supports_all_drives : Bool) : Option (List (String × KwVal)) :=
  let kw := [("fileId", KwVal.str file_id)]
  let kw := if truthyList remove_parents_ids then
      kw ++ [("removeParents", KwVal.str (pyJoin "," (remove_parents_ids.getD [])))]
    else kw
  let kw := if truthyList add_parents_ids then
      kw ++ [("addParents", KwVal.str (pyJoin "," (add_parents_ids.getD [])))]
    else kw
  let kw := match name with
    | some s => if s = "" then kw else kw ++ [("body", KwVal.nameBody s)]
    | none => kw
  let kw := match media with
    | some m => kw ++ [("media_body", KwVal.mediaVal m)]
    | none => kw
  let kw := if supports_all_drives then kw ++ [("supportsAllDrives", KwVal.boolVal true)] else kw
  if kw.length = 1 then none else some kw

/-! The resumable-transfer retry loop. -/

abbrev Response := Nat
abbrev Progress := Nat

/-- `NUM_RETRIES = 5`: number of times to retry failed chunk transfers. -/
def NUM_RETRIES : Nat := 5

/-- The exceptions `req.next_chunk()` can raise, as tagged variants:
`serverError status` is an `apiclient.errors.HttpError` carrying
`err.resp.status`; `transportError code` is a retryable transport or local
I/O error (`httplib2.HttpLib2Error` or `IOError`, the `RETRYABLE_ERRORS`
tuple), tagged so distinct error objects stay distinguishable. -/
inductive TransferError where
  | serverError (status : Nat)
  | transportError (code : Nat)
deriving DecidableEq

/-- One call of `req.next_chunk()`: it returns the pair
`(progress, response)` or raises a `TransferError`. -/
inductive ChunkOutcome where
  | success (progress : Option Progress) (response : Option Response)
  | raises (e : TransferError)
deriving DecidableEq

/-- The `except HttpError` clause of `_execute_file_request` re-raises
immediately when `err.resp.status < 500`; transport and I/O errors are
never fatal. -/
def fatalServerError : TransferError → Bool
  | .serverError status => status < 500
  | .transportError _ => false

/-- Embedding of `handle_progressless_iter`: when the counter exceeds
`NUM_RETRIES` it re-raises the error (`none`); otherwise it sleeps
`random.random() * (2 ** progressless_iters)` seconds and returns
(modelled as `some` of the sleep's upper bound `2 ^ progressless_iters`). -/
def handle_progressless_iter (progressless_iters : Nat) : Option Nat :=
  if progressless_iters > NUM_RETRIES then none
  else some (2 ^ progressless_iters)

/-- How the `while response is None` loop of `_execute_file_request` ends:
`finished response finalIters sleeps` when a chunk call returned a final
response (with the value of `progressless_iters` at loop exit and the trace
of sleep upper bounds), `raised e sleeps` when an error propagated out, and
`outOfChunks` when the supplied outcome list was exhausted with the loop
still awaiting a response. -/
inductive LoopResult where
  | finished (response : Response) (finalIters : Nat) (sleeps : List Nat)
  | raised (e : TransferError) (sleeps : List Nat)
  | outOfChunks (iters : Nat) (sleeps : List Nat)
deriving DecidableEq

/-- Embedding of the `while response is None` loop of
`_execute_file_request` (resumable branch).  Arguments: the outcomes of the
successive `req.next_chunk()` calls, the current `progressless_iters`, and
the accumulated sleep-upper-bound trace (reversed).  A successful chunk
resets `progressless_iters` to `0` (the `else: progressless_iters = 0`
branch) and, when it carries a final response, ends the loop; a fatal
server error (status `< 500`) is re-raised at once, with no increment and
no sleep; any other error increments the counter and goes through
`handle_progressless_iter`, which either sleeps and lets the loop continue
or re-raises the error once the budget is exhausted. -/
def runLoop : List ChunkOutcome → Nat → List Nat → LoopResult
  | [], iters, sleeps => .outOfChunks iters sleeps.reverse
  | .success _ (some r) :: _, _, sleeps => .finished r 0 sleeps.reverse
  | .success _ none :: rest, _, sleeps => runLoop rest 0 sleeps
  | .raises e :: rest, iters, sleeps =>
    if fatalServerError e then .raised e sleeps.reverse
    else
      match handle_progressless_iter (iters + 1) with
      | none => .raised e sleeps.reverse
      | some ub => runLoop rest (iters + 1) (ub :: sleeps)

/-- The caller-visible result of `_execute_file_request` on the resumable
branch: `some (Except.error e)` when an error propagates, and
`some (Except.ok none)` when the loop terminates — the branch has no
`return` statement, so after the loop exits the Python function returns
`None`, discarding the final response.  `none` means the supplied outcome
list ended with the loop still awaiting a response. -/
def executeResumableResult (outcomes : List ChunkOutcome) :
    Option (Except TransferError (Option Response)) :=
  match runLoop outcomes 0 [] with
  | .finished _ _ _ => some (Except.ok none)
  | .raised e _ => some (Except.error e)
  | .outOfChunks _ _ => none

/-! Shared helper lemmas. -/

/-- The join of a non-empty list of parts starts with its first part. -/
theorem pyJoin_cons_head (sep p : String) (l : List String) :
    ∃ t : String, pyJoin sep (p :: l) = p ++ t := by
  cases l with
  | nil => exact ⟨"", (String.append_empty p).symm⟩
  | cons q rest =>
      exact ⟨sep ++ pyJoin sep (q :: rest), by simp [pyJoin, String.append_assoc]⟩

/-! The claims. -/

/-- C1: with the chunk function raising `ServerError{status=503}` twice and
then succeeding with a final response (here `7`), the loop terminates: it
reaches the final response with the retry counter reset to `0` after the
successful chunk (having slept with upper bounds `2^1` and `2^2`).  But the
resumable branch of `_execute_file_request` has no `return` statement, so
the Python function returns `None` — the final response is not returned to
the caller, contrary to the claim and to the function's own return
annotation `Union[List[File], File]`. -/
theorem c1_success_contract :
    runLoop [ChunkOutcome.raises (TransferError.serverError 503),
             ChunkOutcome.raises (TransferError.serverError 503),
             ChunkOutcome.success none (some 7)] 0 [] =
      LoopResult.finished 7 0 [2, 4] ∧
    executeResumableResult [ChunkOutcome.raises (TransferError.serverError 503),
             ChunkOutcome.raises (TransferError.serverError 503),
             ChunkOutcome.success none (some 7)] = some (Except.ok none) ∧
    executeResumableResult [ChunkOutcome.raises (TransferError.serverError 503),
             ChunkOutcome.raises (TransferError.serverError 503),
             ChunkOutcome.success none (some 7)] ≠ some (Except.ok (some 7)) :=
  ⟨rfl, rfl, by
    intro h
    have h2 : (some (Except.ok none) : Option (Except TransferError (Option Response))) =
        some (Except.ok (some 7)) := h
    simp at h2⟩

/-- C2: when every chunk call raises the same retryable transport error, the
loop retries exactly 5 times — sleeping before each retry with upper bound
`2 ^ k` for retry counter `k`, a strictly increasing trace `2^1 … 2^5` —
and then raises that error unmodified on the 6th consecutive failure, so it
terminates under persistent failure (whatever outcomes would follow are
never requested).  With only 5 consecutive failures the budget is not yet
exhausted and a succeeding 6th call still finishes the transfer. -/
theorem c2_retry_budget :
    (∀ c : Nat, ∀ rest : List ChunkOutcome,
      runLoop (List.replicate 6 (ChunkOutcome.raises (TransferError.transportError c)) ++ rest) 0 [] =
        LoopResult.raised (TransferError.transportError c) [2, 4, 8, 16, 32]) ∧
    (∀ c r : Nat,
      runLoop (List.replicate 5 (ChunkOutcome.raises (TransferError.transportError c))
          ++ [ChunkOutcome.success none (some r)]) 0 [] =
        LoopResult.finished r 0 [2, 4, 8, 16, 32]) ∧
    List.Chain' (· < ·) [2, 4, 8, 16, 32] :=
  ⟨fun _ _ => rfl, fun _ _ => rfl, by norm_num [List.chain'_cons]⟩

/-- C3: a server error with HTTP status strictly below 500 on the first call
is re-raised unmodified immediately — no retry, no sleep, no counter
increment; a server error with status 500 or above instead takes exactly
the `handle_progressless_iter` path (increment, then sleep with upper bound
`2 ^ counter` or raise once the counter exceeds `NUM_RETRIES`), which is
the very same step a retryable transport error takes. -/
theorem c3_fail_fast :
    (∀ s : Nat, ∀ rest : List ChunkOutcome, s < 500 →
      runLoop (ChunkOutcome.raises (TransferError.serverError s) :: rest) 0 [] =
        LoopResult.raised (TransferError.serverError s) []) ∧
    (∀ s k : Nat, ∀ acc : List Nat, ∀ rest : List ChunkOutcome, 500 ≤ s →
      runLoop (ChunkOutcome.raises (TransferError.serverError s) :: rest) k acc =
        match handle_progressless_iter (k + 1) with
        | none => LoopResult.raised (TransferError.serverError s) acc.reverse
        | some ub => runLoop rest (k + 1) (ub :: acc)) ∧
    (∀ c k : Nat, ∀ acc : List Nat, ∀ rest : List ChunkOutcome,
      runLoop (ChunkOutcome.raises (TransferError.transportError c) :: rest) k acc =
        match handle_progressless_iter (k + 1) with
        | none => LoopResult.raised (TransferError.transportError c) acc.reverse
        | some ub => runLoop rest (k + 1) (ub :: acc)) := by
  refine ⟨?_, ?_, fun c k acc rest => rfl⟩
  · intro s rest h
    simp [runLoop, fatalServerError, h]
  · intro s k acc rest h
    have h' : ¬ s < 500 := by omega
    simp [runLoop, fatalServerError, h']

/-- C3 witness: the fail-fast half at the concrete input `404` on the first
call. -/
theorem c3_fail_fast_witness :
    404 < 500 ∧
    runLoop [ChunkOutcome.raises (TransferError.serverError 404)] 0 [] =
      LoopResult.raised (TransferError.serverError 404) [] :=
  ⟨by decide, c3_fail_fast.1 404 [] (by decide)⟩

/-- C4: for every clause list whose operators are all equality or
containment, the builder renders each clause as `field op value` (the value
serialized by `_serialize_query_value`) and joins the parts with the
caller-supplied joiner wrapped in spaces (`" and "` by default); in
particular the spec's example renders as
`trashed = false and name = 'report.pdf'`, and the empty clause list
renders as the empty string. -/
theorem c4_query_joining :
    (∀ clauses : List (String × String × QueryValue), ∀ join : String,
      (∀ c ∈ clauses, c.2.1 = "=" ∨ c.2.1 = "contains") →
      _make_querystring clauses join =
        pyJoin (" " ++ join ++ " ")
          (clauses.map (fun c => c.1 ++ " " ++ c.2.1 ++ " " ++ _serialize_query_value c.2.2))) ∧
    _make_querystring [("trashed", "=", QueryValue.bool false),
        ("name", "=", QueryValue.str "report.pdf")] "and" =
      "trashed = false and name = 'report.pdf'" ∧
    _make_querystring [] "and" = "" := by
  refine ⟨?_, by decide, rfl⟩
  intro clauses join h
  unfold _make_querystring
  congr 1
  apply List.map_congr_left
  intro c hc
  rcases h c hc with h1 | h1 <;>
    simp [_make_query_clause, h1]

/-- C4 witness: the general joining shape applied to a concrete one-clause
list with a caller-supplied joiner. -/
theorem c4_query_joining_witness :
    _make_querystring [("a", "=", QueryValue.bool true)] "or" =
      pyJoin (" " ++ "or" ++ " ")
        ([("a", "=", QueryValue.bool true)].map
          (fun c => c.1 ++ " " ++ c.2.1 ++ " " ++ _serialize_query_value c.2.2)) :=
  c4_query_joining.1 [("a", "=", QueryValue.bool true)] "or" (by decide)

/-- C5: booleans serialize to the bare unquoted tokens `true`/`false`; every
other value is stringified, backslash-escaped first, then quote-escaped,
then wrapped in single quotes — so every non-bool serialization is wrapped
in single quotes, `O'Brien` renders as `'O\'Brien'`, a backslash is
doubled, and the two-character value backslash-quote renders as backslash
escaped before quote escaping (three backslashes, not the four that
quote-first escaping would produce). -/
theorem c5_value_serialization :
    _serialize_query_value (QueryValue.bool true) = "true" ∧
    _serialize_query_value (QueryValue.bool false) = "false" ∧
    (∀ s : String, ∃ body : String,
      _serialize_query_value (QueryValue.str s) = "'" ++ body ++ "'") ∧
    _serialize_query_value (QueryValue.str "O'Brien") = "'O\\'Brien'" ∧
    _serialize_query_value (QueryValue.str "a\\b") = "'a\\\\b'" ∧
    _serialize_query_value (QueryValue.str "\\'") = "'\\\\\\''" ∧
    _serialize_query_value (QueryValue.str "\\'") ≠ "'\\\\\\\\''" :=
  ⟨rfl, rfl, fun s => ⟨_, rfl⟩, by decide, by decide, by decide, by decide⟩

/-- C6: a clause with operator `in` renders with the serialized value first
(`value in field`), while a clause with any other operator renders as
`field op value`. -/
theorem c6_in_asymmetry :
    (∀ field : String, ∀ value : QueryValue,
      _make_query_clause field "in" value false =
        _serialize_query_value value ++ " " ++ "in" ++ " " ++ field) ∧
    (∀ field op : String, ∀ value : QueryValue, op ≠ "in" →
      _make_query_clause field op value false =
        field ++ " " ++ op ++ " " ++ _serialize_query_value value) := by
  refine ⟨fun field value => rfl, ?_⟩
  intro field op value h
  simp [_make_query_clause, h]

/-- C6 witness: the non-membership half at the concrete operator `=`. -/
theorem c6_in_asymmetry_witness :
    ("=" : String) ≠ "in" ∧
    _make_query_clause "a" "=" (QueryValue.bool true) false =
      "a" ++ " " ++ "=" ++ " " ++ _serialize_query_value (QueryValue.bool true) :=
  ⟨by decide, c6_in_asymmetry.2 "a" "=" (QueryValue.bool true) (by decide)⟩

/-- C7 counterexample: the spec's clause-list interface with a per-clause
negation flag (`buildQuery`, modelled from the spec's words) renders the
negated clause `(status, =, "done", negate)` as `not status = 'done'`, but
the source's clause-list builder `_make_querystring` accepts only
`(field, op, value)` 3-tuples (its loop unpacks exactly three components
and passes no negation argument), so the same clause list can only render
un-negated: negation is not reachable through the clause-list interface. -/
theorem c7_negation_counterexample :
    buildQuery [("status", "=", QueryValue.str "done", true)] "and" =
      "not status = 'done'" ∧
    _make_querystring [("status", "=", QueryValue.str "done")] "and" =
      "status = 'done'" ∧
    ("not status = 'done'" : String) ≠ "status = 'done'" :=
  ⟨by decide, by decide, by decide⟩

/-- C7 (amended): a set negation flag prefixes the rendered clause with
`not ` — in particular `(status, =, "done")` negated renders as
`not status = 'done'` — but the flag is a parameter of the single-clause
helper `_make_query_clause` only (default `False`): the clause-list builder
`_make_querystring` takes 3-tuples and renders every clause with the
negation flag `false`. -/
theorem c7_negation :
    (∀ field op : String, ∀ value : QueryValue,
      _make_query_clause field op value true =
        "not " ++ _make_query_clause field op value false) ∧
    _make_query_clause "status" "=" (QueryValue.str "done") true =
      "not status = 'done'" ∧
    (∀ clauses : List (String × String × QueryValue), ∀ join : String,
      _make_querystring clauses join =
        pyJoin (" " ++ join ++ " ")
          (clauses.map (fun c => _make_query_clause c.1 c.2.1 c.2.2 false))) :=
  ⟨fun _ _ _ => rfl, by decide, fun _ _ => rfl⟩

/-- C8: the query builder is a pure function — two calls on equal inputs
(clause list and joiner) produce equal output strings. -/
theorem c8_determinism :
    ∀ clauses1 clauses2 : List (String × String × QueryValue),
    ∀ join1 join2 : String,
      clauses1 = clauses2 → join1 = join2 →
      _make_querystring clauses1 join1 = _make_querystring clauses2 join2 := by
  intro _ _ _ _ h1 h2
  rw [h1, h2]

/-- C8 witness: two calls on the same concrete input agree. -/
theorem c8_determinism_witness :
    _make_querystring [("trashed", "=", QueryValue.bool false)] "and" =
      _make_querystring [("trashed", "=", QueryValue.bool false)] "and" :=
  c8_determinism _ _ _ _ rfl rfl

/-- C9: whatever combination of optional filters is supplied, the clause
list `list_files` builds always has `("trashed", "=", False)` as its first
clause, and the query string it sends always begins with
`trashed = false`. -/
theorem c9_trashed_first :
    ∀ ne nc mt pi : Option String,
      (list_files_clauses ne nc mt pi).head? =
        some ("trashed", "=", QueryValue.bool false) ∧
      ∃ t : String, list_files_query ne nc mt pi = "trashed = false" ++ t := by
  intro ne nc mt pi
  refine ⟨rfl, ?_⟩
  exact pyJoin_cons_head (" " ++ "and" ++ " ") "trashed = false"
    ((optClause "name" "=" ne ++ optClause "name" "contains" nc
      ++ optClause "mimeType" "=" mt ++ optClause "parents" "in" pi).map
      (fun c => _make_query_clause c.1 c.2.1 c.2.2))

/-- C10: called with only a file id — no parents to add or remove (`None`
or an empty, falsy list), no new name, no media, `supports_all_drives`
false — `update_file`'s keyword dict stays at the single `fileId` entry and
the function returns `None` without constructing or executing a remote
update request. -/
theorem c10_update_file_noop :
    (∀ fid : String, update_file fid none none none none false = none) ∧
    (∀ fid : String, update_file fid (some []) (some []) (some "") none false = none) :=
  ⟨fun _ => rfl, fun _ => rfl⟩
